import Mathlib

/-!
# Verification of the artillery-game simulation core

Shallow embedding of the turn-based artillery game's simulation core:
the destructible terrain (`Terrain`), the projectile state machine
(`Projectile.update`, `Projectile.onTerrainHit`, the terrain-hit branch of
`Game.updateProjectiles`), the mine proximity check (`Game.findNearbyKoala`),
fall damage (`Physics.updateEntity` fall tracking), and the impact resolver
(`Game.handleProjectileImpact`).

Conventions of the embedding:
* JavaScript numbers are IEEE doubles; every double value is a rational, so
  state that the code only moves around and compares is embedded in `ℚ`
  (exact arithmetic).  Values produced by `Math.hypot`/`Math.sqrt` and by
  normalisation are irrational in general and live in `ℝ`.
* `Math.hypot(a,b) < c` / `> c` comparisons are embedded by the predicates
  `hypotLt` / `hypotGt` over squares; the lemmas `hypotLt_iff` and
  `hypotGt_iff` prove these are exactly the source comparisons.
* Mutation is embedded as state-passing: a method that mutates `this`
  becomes a function returning the new record.
* Presentational effects (audio, particles, console logging, `rotation`,
  camera) are not part of the embedding; none of the verified claims
  mention them.
-/

namespace Artillery

/-- The value `Projectile.update` hands back to `Game.updateProjectiles`:
`true` (explode), the string `'dud'`, or `false`. -/
inductive USignal where
  | explode
  | dudSignal
  | quiet
deriving DecidableEq, Repr

/-- What `Game.updateProjectiles` does with a projectile after a terrain hit:
keep it in the active set, run the rope pull and remove it, or detonate and
remove it. -/
inductive HitAction where
  | kept
  | ropePull
  | detonate
deriving DecidableEq, Repr

/-- `Math.hypot x y < c`, expressed over squares so that it is decidable on
`ℚ`: since `hypot x y ≥ 0`, the comparison holds iff `0 ≤ c` and
`x² + y² < c²`.  `hypotLt_iff` proves the equivalence. -/
def hypotLt (x y c : ℚ) : Prop := 0 ≤ c ∧ x * x + y * y < c * c

/-- `Math.hypot x y > c`, expressed over squares: it holds iff `c < 0` or
`c² < x² + y²`.  `hypotGt_iff` proves the equivalence. -/
def hypotGt (x y c : ℚ) : Prop := c < 0 ∨ c * c < x * x + y * y

instance (x y c : ℚ) : Decidable (hypotLt x y c) := by
  unfold hypotLt; exact inferInstance

instance (x y c : ℚ) : Decidable (hypotGt x y c) := by
  unfold hypotGt; exact inferInstance

theorem hypotLt_iff (x y c : ℚ) :
    hypotLt x y c ↔ Real.sqrt ((x : ℝ) ^ 2 + (y : ℝ) ^ 2) < (c : ℝ) := by
  unfold hypotLt
  rw [show (x * x + y * y : ℚ) = x ^ 2 + y ^ 2 by ring,
    show (c * c : ℚ) = c ^ 2 by ring]
  constructor
  · rintro ⟨hc, h⟩
    rcases eq_or_lt_of_le hc with hc0 | hc0
    · exfalso
      have : (0 : ℚ) ≤ x ^ 2 + y ^ 2 := by positivity
      nlinarith
    · rw [show ((x : ℝ) ^ 2 + (y : ℝ) ^ 2) = ((x ^ 2 + y ^ 2 : ℚ) : ℝ) by push_cast; ring]
      rw [Real.sqrt_lt' (by exact_mod_cast hc0)]
      push_cast
      exact_mod_cast h
  · intro h
    have hc : (0 : ℝ) ≤ (c : ℝ) := le_of_lt (lt_of_le_of_lt (Real.sqrt_nonneg _) h)
    have hc' : (0 : ℚ) ≤ c := by exact_mod_cast hc
    refine ⟨hc', ?_⟩
    rcases eq_or_lt_of_le hc' with hc0 | hc0
    · exfalso
      have := Real.sqrt_nonneg ((x : ℝ) ^ 2 + (y : ℝ) ^ 2)
      rw [← hc0] at h
      push_cast at h
      linarith
    · have := (Real.sqrt_lt' (show (0 : ℝ) < (c : ℝ) by exact_mod_cast hc0)).mp h
      have : (x : ℝ) ^ 2 + (y : ℝ) ^ 2 < (c : ℝ) ^ 2 := this
      exact_mod_cast this

theorem hypotGt_iff (x y c : ℚ) :
    hypotGt x y c ↔ (c : ℝ) < Real.sqrt ((x : ℝ) ^ 2 + (y : ℝ) ^ 2) := by
  unfold hypotGt
  rw [show (x * x + y * y : ℚ) = x ^ 2 + y ^ 2 by ring,
    show (c * c : ℚ) = c ^ 2 by ring]
  constructor
  · rintro (hc | h)
    · exact lt_of_lt_of_le (by exact_mod_cast hc) (Real.sqrt_nonneg _)
    · have hnn : (0 : ℝ) ≤ (x : ℝ) ^ 2 + (y : ℝ) ^ 2 := by positivity
      rcases le_or_lt (c : ℝ) 0 with hc0 | hc0
      · rcases eq_or_lt_of_le hc0 with hc0' | hc0'
        · rw [hc0']
          rw [show ((x : ℝ) ^ 2 + (y : ℝ) ^ 2) = ((x ^ 2 + y ^ 2 : ℚ) : ℝ) by push_cast; ring]
          rw [Real.sqrt_pos]
          have hc2 : (0 : ℚ) ≤ c ^ 2 := by positivity
          exact_mod_cast lt_of_le_of_lt hc2 h
        · exact lt_of_lt_of_le hc0' (Real.sqrt_nonneg _)
      · rw [show ((x : ℝ) ^ 2 + (y : ℝ) ^ 2) = ((x ^ 2 + y ^ 2 : ℚ) : ℝ) by push_cast; ring]
        rw [Real.lt_sqrt (le_of_lt hc0)]
        exact_mod_cast h
  · intro h
    rcases le_or_lt 0 c with hc | hc
    · right
      have hcr : (0 : ℝ) ≤ (c : ℝ) := by exact_mod_cast hc
      rw [show ((x : ℝ) ^ 2 + (y : ℝ) ^ 2) = ((x ^ 2 + y ^ 2 : ℚ) : ℝ) by push_cast; ring] at h
      rw [Real.lt_sqrt hcr] at h
      exact_mod_cast h
    · exact Or.inl hc

/-- `Projectile` state (`src/js/weapons/Projectile.js` constructor), together
with `shooterId` (the `projectile.shooter` back-reference set by
`Game.fireWeapon`, embedded as an id) and `type` (the weapon type string).
`timer = none` embeds the JavaScript `null` produced by
`WeaponManager.createProjectile` for weapons without `usesTimer`.
The presentational `rotation` field (`Math.atan2`) is not embedded. -/
structure Projectile where
  x : ℚ
  y : ℚ
  vx : ℚ
  vy : ℚ
  type : String
  bounces : Bool
  bounciness : ℚ
  bounceCount : ℕ
  timer : Option ℚ
  timerStarted : Bool
  timeOnGround : ℚ
  triggeredByProximity : Bool
  isTriggered : Bool
  triggerTimer : ℚ
  triggerDelay : ℚ
  isDud : Bool
  dudActivated : Bool
  explodesOnSettle : Bool
  settleVelocityThreshold : ℚ
  settleTime : ℚ
  stationary : Bool
  shooterId : ℕ
deriving DecidableEq, Repr

/-- `this.settleRequiredTime = 0.3` (Projectile.js constructor). -/
def settleRequiredTime : ℚ := 3 / 10

/-- The settle block of `Projectile.update`: when `explodesOnSettle`, compare
the speed with `settleVelocityThreshold`; below it accumulate `settleTime`
and explode once it reaches `settleRequiredTime`; at or above it reset
`settleTime` to 0.  `some s` embeds an early `return`. -/
def Projectile.updateSettle (p : Projectile) (dt : ℚ) :
    Projectile × Option USignal :=
  if p.explodesOnSettle then
    if hypotLt p.vx p.vy p.settleVelocityThreshold then
      let p' := { p with settleTime := p.settleTime + dt }
      if settleRequiredTime ≤ p'.settleTime then (p', some .explode)
      else (p', none)
    else ({ p with settleTime := 0 }, none)
  else (p, none)

/-- The proximity-mine block of `Projectile.update`: only for a stationary
proximity weapon; once `isTriggered`, a dud returns `'dud'` exactly on the
tick that sets `dudActivated` and `false` afterwards, otherwise
`triggerTimer` counts up to `triggerDelay` and then explodes. -/
def Projectile.updateProximity (p : Projectile) (dt : ℚ) :
    Projectile × Option USignal :=
  if p.triggeredByProximity ∧ p.stationary then
    if p.isTriggered then
      if p.isDud then
        if ¬ p.dudActivated then ({ p with dudActivated := true }, some .dudSignal)
        else (p, some .quiet)
      else
        let p' := { p with triggerTimer := p.triggerTimer + dt }
        if p'.triggerDelay ≤ p'.triggerTimer then (p', some .explode)
        else (p', none)
    else (p, none)
  else (p, none)

/-- The timer block of `Projectile.update`: when `timer !== null` and the
fuse has started, accumulate `timeOnGround` and explode once it reaches the
timer value. -/
def Projectile.updateTimer (p : Projectile) (dt : ℚ) :
    Projectile × Option USignal :=
  match p.timer with
  | some t =>
      if p.timerStarted then
        let p' := { p with timeOnGround := p.timeOnGround + dt }
        if t ≤ p'.timeOnGround then (p', some .explode)
        else (p', none)
      else (p, none)
  | none => (p, none)

/-- `Projectile.update(dt, wind)` (Projectile.js): the settle block, then the
proximity block, then the timer block; the first early `return` wins, and the
fall-through returns `false` (`.quiet`).  The trailing `rotation` update is
presentational and not embedded. -/
def Projectile.update (p : Projectile) (dt : ℚ) : Projectile × USignal :=
  match p.updateSettle dt with
  | (p1, some s) => (p1, s)
  | (p1, none) =>
      match p1.updateProximity dt with
      | (p2, some s) => (p2, s)
      | (p2, none) =>
          match p2.updateTimer dt with
          | (p3, some s) => (p3, s)
          | (p3, none) => (p3, .quiet)

/-- `Projectile.onTerrainHit()`: start the fuse on first terrain contact —
only when it has not started yet and `timer !== null`. -/
def Projectile.onTerrainHit (p : Projectile) : Projectile :=
  if ¬ p.timerStarted ∧ p.timer ≠ none then
    { p with timerStarted := true, timeOnGround := 0 }
  else p

/-- The terrain-hit branch of `Game.updateProjectiles` (Game.js), run when the
ray-marched sampling found a solid sample; `p` is the projectile already moved
to the impact point (`proj.x = hitX; proj.y = hitY`) and `n` is the surface
normal the source obtains from `terrain.getSurfaceNormal(proj.x, proj.y)`.
Bouncing weapons compare the incoming speed with 40 (`hypotGt`), reflect and
scale by `bounciness` on a bounce, or settle; mines stick; ropes trigger the
pull and are removed; anything else detonates.  Audio calls are not
embedded. -/
def handleTerrainHit (p : Projectile) (n : ℚ × ℚ) : Projectile × HitAction :=
  if p.bounces then
    if hypotGt p.vx p.vy 40 then
      let dot := p.vx * n.1 + p.vy * n.2
      (Projectile.onTerrainHit
        { p with
          vx := (p.vx - 2 * dot * n.1) * p.bounciness,
          vy := (p.vy - 2 * dot * n.2) * p.bounciness,
          x := p.x + n.1 * 4,
          y := p.y + n.2 * 4,
          bounceCount := p.bounceCount + 1 }, .kept)
    else
      (Projectile.onTerrainHit
        { p with
          vx := 0, vy := 0, stationary := true,
          x := p.x + n.1 * 2, y := p.y + n.2 * 2 }, .kept)
  else if p.type = "mine" then
    ({ p with
        vx := 0, vy := 0, stationary := true,
        x := p.x + n.1 * 2, y := p.y + n.2 * 2 }, .kept)
  else if p.type = "rope" then (p, .ropePull)
  else (p, .detonate)

/-- JavaScript truthiness of the value `Game.updateProjectiles` receives from
`proj.update(dt, wind)` and tests with `if (shouldExplode)`: `true` and the
non-empty string `'dud'` are truthy, `false` is falsy. -/
def shouldExplodeTruthy : USignal → Bool
  | .quiet => false
  | .explode => true
  | .dudSignal => true

/-- The character state the verified components read and write: position,
velocity, `health`/`isAlive` (part_005 `Koala`), `onGround` and the fall
accumulators (`Physics.updateEntity` in NetworkManager.js), and an `id`
used to embed object identity (the `shooter` back-reference).  Presentational
fields (name, animation state, team colour) are not embedded. -/
structure Koala where
  id : ℕ
  x : ℚ
  y : ℚ
  vx : ℚ
  vy : ℚ
  health : ℚ
  isAlive : Bool
  onGround : Bool
  fallDistance : ℚ
  maxFallDistance : ℚ
deriving DecidableEq, Repr

/-- `Koala.takeDamage(amount)` (part_005): no effect on a dead koala,
otherwise clamp `health - amount` at 0. -/
def Koala.takeDamage (k : Koala) (amount : ℚ) : Koala :=
  if k.isAlive then { k with health := max 0 (k.health - amount) }
  else k

/-- Inner loop of `Game.findNearbyKoala(x, y, radius)`: keep the nearest
living koala found so far.  The source tracks `minDist` (a `Math.hypot`
value) and compares `dist < minDist`; both sides are nonnegative, so the
comparison is embedded on squares (`minSq` is the square of the source's
`minDist`). -/
def findNearbyGo (x y : ℚ) : List Koala → ℚ → Option Koala → Option Koala
  | [], _, best => best
  | k :: rest, minSq, best =>
      if k.isAlive ∧ (k.x - x) * (k.x - x) + (k.y - y) * (k.y - y) < minSq then
        findNearbyGo x y rest ((k.x - x) * (k.x - x) + (k.y - y) * (k.y - y)) (some k)
      else findNearbyGo x y rest minSq best

/-- `Game.findNearbyKoala(x, y, radius)`: nearest living koala with
`dist < radius`, or `null`.  `ks` flattens the team rosters in iteration
order.  For `radius < 0` the source comparison `dist < minDist` can never
hold (distances are nonnegative), so the result is `null`; the squared
embedding makes that case explicit.  The only call site passes `radius = 65`.
No shooter check appears anywhere in this function. -/
def findNearbyKoala (ks : List Koala) (x y radius : ℚ) : Option Koala :=
  if radius < 0 then none
  else findNearbyGo x y ks (radius * radius) none

/-- The mine-proximity block of `Game.updateProjectiles`: for a stationary,
not-yet-triggered proximity weapon, query `findNearbyKoala(proj.x, proj.y,
65)` and set `isTriggered` when it returns a koala (the audio beep is not
embedded). -/
def mineProximityCheck (ks : List Koala) (p : Projectile) : Projectile :=
  if p.triggeredByProximity ∧ p.stationary ∧ ¬ p.isTriggered then
    match findNearbyKoala ks p.x p.y 65 with
    | some _ => { p with isTriggered := true }
    | none => p
  else p

/-- The fall-tracking block of `Physics.updateEntity`
(NetworkManager.js, lines 521-540): while descending airborne, accumulate
`fallDistance`; on the ground with a positive accumulator, apply
`Math.floor((fallDistance - 260) / 5)` damage when the fall exceeded 260,
then fold the fall into `maxFallDistance` and reset the accumulator.
The `endTurn` side effect on the enclosing turn state machine is outside
this embedding. -/
def trackFall (e : Koala) (prevY : ℚ) : Koala :=
  if 0 < e.vy ∧ ¬ e.onGround then
    { e with fallDistance := e.fallDistance + (e.y - prevY) }
  else if e.onGround ∧ 0 < e.fallDistance then
    let e1 :=
      if e.isAlive ∧ 260 < e.fallDistance then
        e.takeDamage ((⌊(e.fallDistance - 260) / 5⌋ : ℤ) : ℚ)
      else e
    { e1 with
      maxFallDistance := e1.maxFallDistance + e1.fallDistance,
      fallDistance := 0 }
  else e

/-- The weapon-profile fields `Game.handleProjectileImpact` reads
(`WeaponManager.createWeapons` supplies them; read-only to the core).
`directDamage = none` embeds a profile without the property. -/
structure Weapon where
  damage : ℚ
  directDamage : Option ℚ
  explosionRadius : ℚ
  knockback : ℚ
deriving DecidableEq, Repr

/-- The direct-hit bonus expression `weapon.directDamage || weapon.damage`
(Game.js): in JavaScript both `undefined` (absent property) and `0` are
falsy, so the fallback to `weapon.damage` fires for an absent *or zero*
`directDamage`. -/
def Weapon.directHitDamage (w : Weapon) : ℚ :=
  match w.directDamage with
  | none => w.damage
  | some d => if d = 0 then w.damage else d

/-- The radial damage term of `Game.handleProjectileImpact`:
`Math.round(weapon.damage * (1 - dist / weapon.explosionRadius))`, with
`dist = Math.hypot` of the koala-to-impact offset (given here by its square
`dSq`).  `Math.round` is floor of `x + 1/2`. -/
noncomputable def radialDamage (w : Weapon) (dSq : ℚ) : ℤ :=
  ⌊(w.damage : ℝ) * (1 - Real.sqrt (dSq : ℝ) / (w.explosionRadius : ℝ)) + 1 / 2⌋

/-- One iteration of the damage loop of `Game.handleProjectileImpact`: a
living koala strictly inside the explosion radius takes the radial damage.
The knockback impulse written to `vx`/`vy` in the same loop body is
irrational (`cos`/`sin` of `atan2`) and touches only velocity, which no
verified claim observes; it is not embedded. -/
noncomputable def blastKoala (w : Weapon) (ix iy : ℚ) (k : Koala) : Koala :=
  if k.isAlive then
    if Real.sqrt (((k.x - ix) ^ 2 + (k.y - iy) ^ 2 : ℚ) : ℝ) <
        (w.explosionRadius : ℝ) then
      k.takeDamage ((radialDamage w ((k.x - ix) ^ 2 + (k.y - iy) ^ 2) : ℤ) : ℚ)
    else k
  else k

/-- The damage part of `Game.handleProjectileImpact(projectile,
directHitKoala)`: when `explosionRadius > 0`, every koala runs through the
radial damage loop; afterwards the confirmed direct-hit koala (identified by
id) additionally takes `weapon.directDamage || weapon.damage`.  Terrain
carving (`createCrater`) is embedded separately on `Terrain`; explosion
visuals, audio and particles are presentational. -/
noncomputable def handleProjectileImpact (w : Weapon) (ix iy : ℚ)
    (ks : List Koala) (directHitId : Option ℕ) : List Koala :=
  let ks1 := if 0 < w.explosionRadius then ks.map (blastKoala w ix iy) else ks
  match directHitId with
  | some i => ks1.map (fun k => if k.id = i then k.takeDamage w.directHitDamage else k)
  | none => ks1

/-- `Terrain` (part_006): `width`/`height` and the visual canvas's alpha
channel, one value in `[0, 255]` per pixel `(x, y) ∈ [0,width) × [0,height)`
(values outside the canvas are irrelevant: every query bounds-checks first).
Canvas alpha after feathered craters is irrational in general, so the buffer
is `ℝ`-valued. -/
structure Terrain where
  width : ℤ
  height : ℤ
  alpha : ℤ → ℤ → ℝ

/-- Solidity of the collision mask at a pixel: `updateCollisionMask` copies
the visual canvas, forces alpha `< 128` to 0 and `≥ 128` to 255, and
`checkCollision` then tests mask alpha `> 128` — together: visual alpha
`≥ 128`. -/
def Terrain.MaskSolid (t : Terrain) (x y : ℤ) : Prop :=
  128 ≤ t.alpha x y

/-- `Terrain.checkCollision(x, y)` on integer pixel coordinates (the source
floors its arguments first): out of canvas it is `y >= this.height`
("below world = collision"), otherwise it reads the binarised mask. -/
def Terrain.CheckCollision (t : Terrain) (x y : ℤ) : Prop :=
  if x < 0 ∨ t.width ≤ x ∨ y < 0 ∨ t.height ≤ y then t.height ≤ y
  else t.MaskSolid x y

noncomputable instance (t : Terrain) (x y : ℤ) : Decidable (t.CheckCollision x y) := by
  unfold Terrain.CheckCollision
  split
  · exact inferInstance
  · exact Classical.propDecidable _

/-- The alpha of the crater's radial gradient at distance `d` from its
center, per the `createCrater` gradient stops (`0 ↦ 1`, `0.7 ↦ 1`, `1 ↦ 0`,
linear in between); outside the filled disc of radius `r` nothing is drawn,
encoded by the 0 branch. -/
noncomputable def craterFactor (r d : ℝ) : ℝ :=
  if d ≤ 0.7 * r then 1
  else if d < r then (r - d) / (0.3 * r)
  else 0

/-- `Terrain.createCrater(cx, cy, radius)` (part_006): `destination-out`
compositing multiplies each pixel's alpha by one minus the gradient alpha at
that pixel's distance from the center; the subsequent `source-atop` burn-mark
stroke leaves alpha unchanged, and `updateCollisionMask()` re-derives the
mask, which this embedding always reads freshly (`Terrain.MaskSolid`). -/
noncomputable def Terrain.createCrater (t : Terrain) (cx cy r : ℝ) : Terrain :=
  { t with
    alpha := fun i j =>
      t.alpha i j *
        (1 - craterFactor r (Real.sqrt (((i : ℝ) - cx) ^ 2 + ((j : ℝ) - cy) ^ 2))) }

/-- The accumulation loop of `Terrain.getSurfaceNormal(x, y)`: over offsets
`ox, oy ∈ [-5, 5]`, subtract the offset for every solid sample; the
accumulators `nx`, `ny` are integers. -/
noncomputable def Terrain.normalSum (t : Terrain) (x y : ℤ) : ℤ × ℤ :=
  (∑ ox ∈ Finset.Icc (-5 : ℤ) 5, ∑ oy ∈ Finset.Icc (-5 : ℤ) 5,
      if t.CheckCollision (x + ox) (y + oy) then -ox else 0,
   ∑ ox ∈ Finset.Icc (-5 : ℤ) 5, ∑ oy ∈ Finset.Icc (-5 : ℤ) 5,
      if t.CheckCollision (x + ox) (y + oy) then -oy else 0)

/-- `Terrain.getSurfaceNormal(x, y)`: normalise the accumulated sum by its
`Math.hypot` length, returning the documented default `(0, -1)` ("up") when
the length is zero. -/
noncomputable def Terrain.getSurfaceNormal (t : Terrain) (x y : ℤ) : ℝ × ℝ :=
  if Real.sqrt (((t.normalSum x y).1 : ℝ) ^ 2 + ((t.normalSum x y).2 : ℝ) ^ 2)
      = 0 then (0, -1)
  else
    (((t.normalSum x y).1 : ℝ) /
        Real.sqrt (((t.normalSum x y).1 : ℝ) ^ 2 + ((t.normalSum x y).2 : ℝ) ^ 2),
     ((t.normalSum x y).2 : ℝ) /
        Real.sqrt (((t.normalSum x y).1 : ℝ) ^ 2 + ((t.normalSum x y).2 : ℝ) ^ 2))

/-! ## Helper lemmas about `Projectile.onTerrainHit` -/

theorem onTerrainHit_keeps_kinematics (p : Projectile) :
    p.onTerrainHit.vx = p.vx ∧ p.onTerrainHit.vy = p.vy ∧
    p.onTerrainHit.x = p.x ∧ p.onTerrainHit.y = p.y ∧
    p.onTerrainHit.bounceCount = p.bounceCount ∧
    p.onTerrainHit.stationary = p.stationary := by
  unfold Projectile.onTerrainHit
  split <;> simp

theorem onTerrainHit_starts (p : Projectile) (h : p.timer ≠ none) :
    p.onTerrainHit.timerStarted = true := by
  unfold Projectile.onTerrainHit
  split
  · rfl
  · rename_i hg
    rcases not_and_or.mp hg with hg1 | hg2
    · simpa using hg1
    · exact absurd h (by simpa using hg2)

/-! ## Claim theorems -/

/-- Concrete grenade-like bouncing projectile for claim C4: velocity
`(0, 300)`, `bounciness = 0.6`. -/
def pC4 : Projectile :=
  { x := 100, y := 50, vx := 0, vy := 300, type := "grenade",
    bounces := true, bounciness := 3/5, bounceCount := 0,
    timer := some 3, timerStarted := false, timeOnGround := 0,
    triggeredByProximity := false, isTriggered := false, triggerTimer := 0,
    triggerDelay := 3, isDud := false, dudActivated := false,
    explodesOnSettle := false, settleVelocityThreshold := 100,
    settleTime := 0, stationary := false, shooterId := 0 }

/-- C4: a bouncing projectile with velocity `(0, 300)` hitting a flat
horizontal surface with outward normal `(0, -1)` and `bounciness = 0.6`
leaves the bounce with velocity exactly `(0, -180)` and its `bounceCount`
incremented by exactly 1 (and it keeps flying). -/
theorem c4_bounce_reflection :
    (handleTerrainHit pC4 (0, -1)).1.vx = 0 ∧
    (handleTerrainHit pC4 (0, -1)).1.vy = -180 ∧
    (handleTerrainHit pC4 (0, -1)).1.bounceCount = pC4.bounceCount + 1 ∧
    (handleTerrainHit pC4 (0, -1)).2 = HitAction.kept := by
  norm_num [pC4, handleTerrainHit, hypotGt, Projectile.onTerrainHit, Option.some_ne_none,
    reduceCtorEq]

/-- Concrete bouncing projectile for claim C3's counterexample: incoming
velocity `(50, 0)` (speed 50 > 40) whose reflected, bounciness-scaled
velocity is `(30, 0)` (speed 30 ≤ 40). -/
def pC3 : Projectile :=
  { x := 100, y := 50, vx := 50, vy := 0, type := "grenade",
    bounces := true, bounciness := 3/5, bounceCount := 0,
    timer := some 3, timerStarted := false, timeOnGround := 0,
    triggeredByProximity := false, isTriggered := false, triggerTimer := 0,
    triggerDelay := 3, isDud := false, dudActivated := false,
    explodesOnSettle := false, settleVelocityThreshold := 100,
    settleTime := 0, stationary := false, shooterId := 0 }

/-- C3 counterexample: for `pC3` against normal `(0, -1)` the reflected,
bounciness-scaled velocity is `(30, 0)`, whose speed does **not** exceed
40 px/s — so the claim (decision on the post-reflection scaled speed)
predicts settling (zero velocity, `stationary = true`); the code instead
bounces: the result keeps velocity `(30, 0)`, stays non-stationary and
increments `bounceCount`, because the source compares the *incoming* speed
(50 > 40) with the threshold. -/
theorem c3_counterexample :
    ¬ hypotGt ((pC3.vx - 2 * (pC3.vx * 0 + pC3.vy * (-1)) * 0) * pC3.bounciness)
        ((pC3.vy - 2 * (pC3.vx * 0 + pC3.vy * (-1)) * (-1)) * pC3.bounciness) 40 ∧
    (handleTerrainHit pC3 (0, -1)).1.vx = 30 ∧
    (handleTerrainHit pC3 (0, -1)).1.stationary = false ∧
    (handleTerrainHit pC3 (0, -1)).1.bounceCount = pC3.bounceCount + 1 := by
  norm_num [pC3, handleTerrainHit, hypotGt, Projectile.onTerrainHit, Option.some_ne_none,
    reduceCtorEq]

/-- C3 (amended): for a bouncing-category projectile hitting terrain, the
bounce-versus-settle decision is made on the **incoming** speed, before the
velocity is reflected and scaled by `bounciness`: if the incoming speed
exceeds 40 px/s the projectile bounces (velocity reflected by
`v' = v - 2(v·n)n` then scaled by `bounciness`, position nudged 4 px along
the normal, `bounceCount` incremented, still flying), otherwise its velocity
is zeroed, it is marked stationary and nudged 2 px along the normal; in both
branches the timer-start hook fires and the projectile stays in the active
set. -/
theorem c3_amended_bounce_decision (p : Projectile) (n : ℚ × ℚ)
    (hb : p.bounces = true) :
    (handleTerrainHit p n).2 = HitAction.kept ∧
    (hypotGt p.vx p.vy 40 →
      (handleTerrainHit p n).1.vx
          = (p.vx - 2 * (p.vx * n.1 + p.vy * n.2) * n.1) * p.bounciness ∧
      (handleTerrainHit p n).1.vy
          = (p.vy - 2 * (p.vx * n.1 + p.vy * n.2) * n.2) * p.bounciness ∧
      (handleTerrainHit p n).1.x = p.x + n.1 * 4 ∧
      (handleTerrainHit p n).1.y = p.y + n.2 * 4 ∧
      (handleTerrainHit p n).1.bounceCount = p.bounceCount + 1 ∧
      (handleTerrainHit p n).1.stationary = p.stationary ∧
      (p.timer ≠ none → (handleTerrainHit p n).1.timerStarted = true)) ∧
    (¬ hypotGt p.vx p.vy 40 →
      (handleTerrainHit p n).1.vx = 0 ∧
      (handleTerrainHit p n).1.vy = 0 ∧
      (handleTerrainHit p n).1.stationary = true ∧
      (handleTerrainHit p n).1.x = p.x + n.1 * 2 ∧
      (handleTerrainHit p n).1.y = p.y + n.2 * 2 ∧
      (handleTerrainHit p n).1.bounceCount = p.bounceCount ∧
      (p.timer ≠ none → (handleTerrainHit p n).1.timerStarted = true)) := by
  unfold handleTerrainHit
  rw [if_pos hb]
  by_cases hsp : hypotGt p.vx p.vy 40
  · rw [if_pos hsp]
    refine ⟨rfl, fun _ => ?_, fun hc => absurd hsp hc⟩
    refine ⟨?_, ?_, ?_, ?_, ?_, ?_, ?_⟩ <;>
      first
        | exact ((onTerrainHit_keeps_kinematics _).1)
        | exact ((onTerrainHit_keeps_kinematics _).2.1)
        | exact ((onTerrainHit_keeps_kinematics _).2.2.1)
        | exact ((onTerrainHit_keeps_kinematics _).2.2.2.1)
        | exact ((onTerrainHit_keeps_kinematics _).2.2.2.2.1)
        | exact ((onTerrainHit_keeps_kinematics _).2.2.2.2.2)
        | exact fun ht => onTerrainHit_starts _ ht
  · rw [if_neg hsp]
    refine ⟨rfl, fun hc => absurd hc hsp, fun _ => ?_⟩
    refine ⟨?_, ?_, ?_, ?_, ?_, ?_, ?_⟩ <;>
      first
        | exact ((onTerrainHit_keeps_kinematics _).1)
        | exact ((onTerrainHit_keeps_kinematics _).2.1)
        | exact ((onTerrainHit_keeps_kinematics _).2.2.1)
        | exact ((onTerrainHit_keeps_kinematics _).2.2.2.1)
        | exact ((onTerrainHit_keeps_kinematics _).2.2.2.2.1)
        | exact ((onTerrainHit_keeps_kinematics _).2.2.2.2.2)
        | exact fun ht => onTerrainHit_starts _ ht

/-- C3 amended, evaluated at `pC3` against normal `(0, -1)`: the incoming
speed 50 exceeds 40, so the code bounces and increments `bounceCount`. -/
theorem c3_amended_bounce_decision_witness :
    (handleTerrainHit pC3 (0, -1)).1.bounceCount = pC3.bounceCount + 1 := by
  have h := c3_amended_bounce_decision pC3 (0, -1) rfl
  exact (h.2.1 (by norm_num [pC3, hypotGt])).2.2.2.2.1

/-- Concrete fresh timer projectile (grenade-like, timer resolved to 3 s)
used by the C10 witness. -/
def pC10 : Projectile :=
  { x := 0, y := 0, vx := 10, vy := 0, type := "grenade",
    bounces := true, bounciness := 7/10, bounceCount := 0,
    timer := some 3, timerStarted := false, timeOnGround := 0,
    triggeredByProximity := false, isTriggered := false, triggerTimer := 0,
    triggerDelay := 3, isDud := false, dudActivated := false,
    explodesOnSettle := false, settleVelocityThreshold := 100,
    settleTime := 0, stationary := false, shooterId := 0 }

/-- C10: `onTerrainHit` is idempotent and never restarts a running fuse: on a
projectile with a non-null timer whose fuse has not started (every projectile
is constructed with `timerStarted = false`, since `createProjectile` never
passes `timerStartsOnThrow`), the first call sets `timerStarted = true` and
`timeOnGround = 0`; any call on a projectile whose fuse is already running is
the identity; and a second call always equals the first. -/
theorem c10_onTerrainHit_idempotent (p : Projectile) :
    (p.timer ≠ none → p.timerStarted = false →
      p.onTerrainHit.timerStarted = true ∧ p.onTerrainHit.timeOnGround = 0) ∧
    (p.timerStarted = true → p.onTerrainHit = p) ∧
    p.onTerrainHit.onTerrainHit = p.onTerrainHit := by
  refine ⟨?_, ?_, ?_⟩
  · intro ht hs
    unfold Projectile.onTerrainHit
    rw [if_pos ⟨by simp [hs], ht⟩]
    exact ⟨rfl, rfl⟩
  · intro hs
    unfold Projectile.onTerrainHit
    rw [if_neg]
    rintro ⟨h1, _⟩
    exact h1 hs
  · unfold Projectile.onTerrainHit
    split_ifs with h1 h2 <;> simp_all

/-- C10, evaluated on a concrete fresh grenade-like projectile: the first
terrain hit starts the fuse from zero, and a repeated hit changes nothing. -/
theorem c10_onTerrainHit_idempotent_witness :
    pC10.onTerrainHit.timerStarted = true ∧ pC10.onTerrainHit.timeOnGround = 0 ∧
    pC10.onTerrainHit.onTerrainHit = pC10.onTerrainHit := by
  have h := c10_onTerrainHit_idempotent pC10
  exact ⟨(h.1 (by simp [pC10]) rfl).1, (h.1 (by simp [pC10]) rfl).2, h.2.2⟩

/-- Concrete timer projectile with a running fuse (1.5 s on the clock) for
the C6 witness. -/
def pC6 : Projectile :=
  { x := 0, y := 0, vx := 0, vy := 0, type := "grenade",
    bounces := true, bounciness := 7/10, bounceCount := 1,
    timer := some 3, timerStarted := true, timeOnGround := 3/2,
    triggeredByProximity := false, isTriggered := false, triggerTimer := 0,
    triggerDelay := 3, isDud := false, dudActivated := false,
    explodesOnSettle := false, settleVelocityThreshold := 100,
    settleTime := 0, stationary := false, shooterId := 0 }

/-- C6: for a timer weapon (`explodesOnSettle = false`,
`triggeredByProximity = false`) with its timer resolved to 3.0 s: before the
first terrain contact (`timerStarted = false`, as `timerStartsOnThrow` is
never passed) `update` leaves the whole state unchanged and signals nothing;
once the fuse runs, each `update` advances `timeOnGround` by `dt` and signals
detonation exactly when the advanced `timeOnGround` reaches 3.0. -/
theorem c6_timer_weapon (p : Projectile) (dt : ℚ)
    (hs : p.explodesOnSettle = false) (hp : p.triggeredByProximity = false)
    (ht : p.timer = some 3) :
    (p.timerStarted = false → p.update dt = (p, USignal.quiet)) ∧
    (p.timerStarted = true →
      (p.update dt).1.timeOnGround = p.timeOnGround + dt ∧
      ((p.update dt).2 = USignal.explode ↔ 3 ≤ p.timeOnGround + dt) ∧
      (p.timeOnGround + dt < 3 → (p.update dt).2 = USignal.quiet)) := by
  constructor
  · intro h0
    simp [Projectile.update, Projectile.updateSettle, Projectile.updateProximity,
      Projectile.updateTimer, hs, hp, ht, h0]
  · intro h1
    by_cases hle : 3 ≤ p.timeOnGround + dt
    · refine ⟨?_, ?_, fun hlt => absurd hle (not_le.mpr hlt)⟩ <;>
        simp [Projectile.update, Projectile.updateSettle, Projectile.updateProximity,
          Projectile.updateTimer, hs, hp, ht, h1, hle]
    · refine ⟨?_, ?_, fun _ => ?_⟩ <;>
        simp [Projectile.update, Projectile.updateSettle, Projectile.updateProximity,
          Projectile.updateTimer, hs, hp, ht, h1, hle]

/-- C6, evaluated on a concrete grenade whose fuse is running with 1.5 s
accumulated: one 1.0 s tick advances `timeOnGround` to 2.5 and stays quiet. -/
theorem c6_timer_weapon_witness :
    (pC6.update 1).1.timeOnGround = pC6.timeOnGround + 1 ∧
    (pC6.update 1).2 = USignal.quiet := by
  have h := (c6_timer_weapon pC6 1 rfl rfl rfl).2 rfl
  exact ⟨h.1, h.2.2 (by norm_num [pC6])⟩

/-- Concrete stationary, triggered dud mine (`isDud = true`,
`dudActivated = false` — the state a mine with `dudChance = 1.0` reaches on
its first triggered tick). -/
def pDud : Projectile :=
  { x := 0, y := 0, vx := 0, vy := 0, type := "mine",
    bounces := false, bounciness := 1/2, bounceCount := 0,
    timer := some 3, timerStarted := false, timeOnGround := 0,
    triggeredByProximity := true, isTriggered := true, triggerTimer := 0,
    triggerDelay := 3, isDud := true, dudActivated := false,
    explodesOnSettle := false, settleVelocityThreshold := 100,
    settleTime := 0, stationary := true, shooterId := 0 }

/-- C5: `Projectile.update` itself honours the dud contract — the first
triggered tick returns the `'dud'` sentinel (setting `dudActivated`) and the
next tick returns `false` — but `Game.updateProjectiles` tests that return
value with `if (shouldExplode)`, and the string `'dud'` is truthy, so on the
very tick the sentinel is returned the game calls `handleProjectileImpact`
and `removeProjectile`: the dud mine is detonated and removed instead of
persisting inertly, contradicting the claim (and the source's own comments
"Dud doesn't explode" / "Dud stays there"). -/
theorem c5_dud_sentinel_is_truthy :
    (pDud.update (1/60)).2 = USignal.dudSignal ∧
    (pDud.update (1/60)).1.dudActivated = true ∧
    ((pDud.update (1/60)).1.update (1/60)).2 = USignal.quiet ∧
    shouldExplodeTruthy (pDud.update (1/60)).2 = true := by
  norm_num [pDud, Projectile.update, Projectile.updateSettle,
    Projectile.updateProximity, Projectile.updateTimer, shouldExplodeTruthy]

/-- Characterisation of the `findNearbyKoala` loop: it ends with a koala in
hand iff it started with one or some living koala in the list is strictly
within the current search distance (squared). -/
theorem findNearbyGo_isSome (x y : ℚ) (ks : List Koala) (m : ℚ)
    (b : Option Koala) :
    (findNearbyGo x y ks m b).isSome = true ↔
      b.isSome = true ∨ ∃ k ∈ ks, k.isAlive = true ∧
        (k.x - x) * (k.x - x) + (k.y - y) * (k.y - y) < m := by
  induction ks generalizing m b with
  | nil => simp [findNearbyGo]
  | cons k rest ih =>
      rw [findNearbyGo]
      split_ifs with h
      · rw [ih]
        constructor
        · intro _
          exact Or.inr ⟨k, List.mem_cons_self _ _, h.1, h.2⟩
        · intro _
          exact Or.inl rfl
      · rw [ih]
        constructor
        · rintro (hb | ⟨k', hk', ha, hd⟩)
          · exact Or.inl hb
          · exact Or.inr ⟨k', List.mem_cons_of_mem _ hk', ha, hd⟩
        · rintro (hb | ⟨k', hk', ha, hd⟩)
          · exact Or.inl hb
          · rcases List.mem_cons.mp hk' with rfl | hk''
            · exact absurd ⟨ha, hd⟩ h
            · exact Or.inr ⟨k', hk'', ha, hd⟩

/-- The shooter of the C2 mine, standing right next to it. -/
def kShooterC2 : Koala :=
  { id := 7, x := 10, y := 10, vx := 0, vy := 0, health := 100,
    isAlive := true, onGround := true, fallDistance := 0,
    maxFallDistance := 0 }

/-- A stationary, not-yet-triggered proximity mine whose shooter is
`kShooterC2` (`shooterId = 7`), lying 2 px away from the shooter. -/
def pMineC2 : Projectile :=
  { x := 12, y := 10, vx := 0, vy := 0, type := "mine",
    bounces := false, bounciness := 1/2, bounceCount := 0,
    timer := some 3, timerStarted := false, timeOnGround := 0,
    triggeredByProximity := true, isTriggered := false, triggerTimer := 0,
    triggerDelay := 3, isDud := false, dudActivated := false,
    explodesOnSettle := false, settleVelocityThreshold := 100,
    settleTime := 0, stationary := true, shooterId := 7 }

/-- C2 counterexample: with the shooter as the only living character in the
roster (2 px from the mine, well inside the 65 px radius), the per-tick
proximity check sets `isTriggered = true` — the claim says the shooter's own
presence never triggers the mine, but `findNearbyKoala` has no shooter
check. -/
theorem c2_counterexample :
    (mineProximityCheck [kShooterC2] pMineC2).isTriggered = true ∧
    pMineC2.isTriggered = false ∧
    ∀ k ∈ [kShooterC2], k.id = pMineC2.shooterId := by
  refine ⟨?_, rfl, ?_⟩
  · norm_num [mineProximityCheck, findNearbyKoala, findNearbyGo,
      kShooterC2, pMineC2]
  · intro k hk
    rw [List.mem_singleton.mp hk]
    rfl

/-- C2 (amended): for a stationary, not-yet-triggered proximity mine, the
per-tick proximity check sets `isTriggered = true` exactly when some living
character — the mine's shooter included — is strictly within the fixed 65 px
trigger radius. -/
theorem c2_amended_trigger_iff (ks : List Koala) (p : Projectile)
    (h1 : p.triggeredByProximity = true) (h2 : p.stationary = true)
    (h3 : p.isTriggered = false) :
    ((mineProximityCheck ks p).isTriggered = true ↔
      ∃ k ∈ ks, k.isAlive = true ∧
        (k.x - p.x) * (k.x - p.x) + (k.y - p.y) * (k.y - p.y) < 65 * 65) := by
  unfold mineProximityCheck
  rw [if_pos ⟨h1, h2, by simp [h3]⟩]
  unfold findNearbyKoala
  rw [if_neg (by norm_num)]
  have h := findNearbyGo_isSome p.x p.y ks (65 * 65) none
  rcases hgo : findNearbyGo p.x p.y ks (65 * 65) none with _ | k
  · rw [hgo] at h
    simp only [Option.isSome_none, Bool.false_eq_true, false_iff, Option.isSome_some,
      not_or, false_or] at h
    simp [h3, h]
  · rw [hgo] at h
    simp only [Option.isSome_some, Option.isSome_none, Bool.false_eq_true, false_or,
      true_iff] at h
    simp [h]

/-- C2 amended, evaluated on the concrete shooter-only roster: the living
shooter inside the radius makes the check trigger the mine. -/
theorem c2_amended_trigger_iff_witness :
    (mineProximityCheck [kShooterC2] pMineC2).isTriggered = true := by
  refine (c2_amended_trigger_iff [kShooterC2] pMineC2 rfl rfl rfl).mpr ?_
  exact ⟨kShooterC2, List.mem_singleton_self _, rfl, by norm_num [kShooterC2, pMineC2]⟩

/-- C7: in the fall-tracking step of `Physics.updateEntity`, a living,
grounded character with a positive fall accumulator takes
`floor((fallDistance - 260) / 5)` damage (through `takeDamage`, which clamps
health at 0) exactly when the accumulated fall exceeds 260 px, and the
accumulator resets to 0; at exactly 260 px no damage is applied but the
accumulator still resets. -/
theorem c7_fall_damage (e : Koala) (prevY : ℚ)
    (hg : e.onGround = true) (ha : e.isAlive = true) :
    (260 < e.fallDistance →
      (trackFall e prevY).health
          = max 0 (e.health - ((⌊(e.fallDistance - 260) / 5⌋ : ℤ) : ℚ)) ∧
      (trackFall e prevY).fallDistance = 0) ∧
    (e.fallDistance = 260 →
      (trackFall e prevY).health = e.health ∧
      (trackFall e prevY).fallDistance = 0) := by
  constructor
  · intro hf
    have h0 : 0 < e.fallDistance := by linarith
    simp [trackFall, Koala.takeDamage, hg, ha, hf, h0]
  · intro hf
    norm_num [trackFall, Koala.takeDamage, hg, ha, hf]

/-- A living, grounded koala that just accumulated a 300 px fall. -/
def eC7 : Koala :=
  { id := 1, x := 0, y := 0, vx := 0, vy := 0, health := 100,
    isAlive := true, onGround := true, fallDistance := 300,
    maxFallDistance := 0 }

/-- C7, evaluated at `fallDistance = 300`, `health = 100`: the landing costs
`floor((300 - 260) / 5) = 8` health, leaving 92, and resets the
accumulator. -/
theorem c7_fall_damage_witness :
    (trackFall eC7 0).health = 92 ∧ (trackFall eC7 0).fallDistance = 0 := by
  have h := (c7_fall_damage eC7 0 rfl rfl).1 (by norm_num [eC7])
  refine ⟨?_, h.2⟩
  rw [h.1]
  norm_num [eC7]

/-- The bazooka profile from `WeaponManager.createWeapons`:
`damage: 50, directDamage: 0, explosionRadius: 50, knockback: 300`. -/
def bazookaW : Weapon :=
  { damage := 50, directDamage := some 0, explosionRadius := 50,
    knockback := 300 }

/-- A living koala standing exactly at the C8 impact point, with 200
health. -/
def kC8 : Koala :=
  { id := 3, x := 10, y := 10, vx := 0, vy := 0, health := 200,
    isAlive := true, onGround := false, fallDistance := 0,
    maxFallDistance := 0 }

/-- C8 counterexample: the bazooka profile *sets* `directDamage` to 0, yet a
confirmed direct hit applies the full `damage` (50) as the bonus, because
`weapon.directDamage || weapon.damage` falls back on any falsy value, 0
included.  At distance 0 the radial term is 50, so the koala ends at
`200 - 50 - 50 = 100` health — the claim (fallback only when `directDamage`
is unset) predicts `200 - 50 - 0 = 150`. -/
theorem c8_counterexample :
    bazookaW.directDamage = some 0 ∧
    bazookaW.directHitDamage = bazookaW.damage ∧
    (handleProjectileImpact bazookaW 10 10 [kC8] (some 3)).map Koala.health
      = [100] := by
  refine ⟨rfl, rfl, ?_⟩
  have hd : radialDamage ⟨50, some 0, 50, 300⟩ 0 = 50 := by
    unfold radialDamage
    norm_num [Real.sqrt_zero]
  norm_num [handleProjectileImpact, blastKoala, Koala.takeDamage,
    Weapon.directHitDamage, bazookaW, kC8, Real.sqrt_zero]
  rw [hd]
  norm_num

/-- C8 (amended): a confirmed direct hit additionally applies
`directDamage`, falling back to the weapon's `damage` when `directDamage` is
unset **or zero** (JavaScript `||` on a falsy value); the bonus is applied on
top of the radial-falloff pass; and a living character at distance at least
`explosionRadius` from the impact receives zero radial damage. -/
theorem c8_amended_direct_bonus (w : Weapon) (ix iy : ℚ) (ks : List Koala)
    (i : ℕ) (k : Koala) :
    (∀ d : ℚ, w.directDamage = some d → d ≠ 0 → w.directHitDamage = d) ∧
    (w.directDamage = none ∨ w.directDamage = some 0 →
      w.directHitDamage = w.damage) ∧
    (handleProjectileImpact w ix iy ks (some i) =
      (handleProjectileImpact w ix iy ks none).map
        (fun k' => if k'.id = i then k'.takeDamage w.directHitDamage else k')) ∧
    (k.isAlive = true →
      (w.explosionRadius : ℝ) ≤
        Real.sqrt (((k.x - ix) ^ 2 + (k.y - iy) ^ 2 : ℚ) : ℝ) →
      blastKoala w ix iy k = k) := by
  refine ⟨?_, ?_, rfl, ?_⟩
  · intro d hd hdne
    unfold Weapon.directHitDamage
    rw [hd]
    simp [hdne]
  · rintro (hd | hd)
    · unfold Weapon.directHitDamage
      rw [hd]
    · unfold Weapon.directHitDamage
      rw [hd]
      simp
  · intro ha hge
    unfold blastKoala
    rw [if_pos ha, if_neg (not_lt.mpr hge)]

/-- Weapon with a nonzero `directDamage` for the C8 amended witness. -/
def wC8w : Weapon :=
  { damage := 20, directDamage := some 5, explosionRadius := 30,
    knockback := 0 }

/-- A living koala 100 px from the C8 witness impact point. -/
def kC8far : Koala :=
  { id := 9, x := 100, y := 0, vx := 0, vy := 0, health := 80,
    isAlive := true, onGround := true, fallDistance := 0,
    maxFallDistance := 0 }

/-- C8 amended, evaluated concretely: a set, nonzero `directDamage` of 5 is
used as-is, and a koala 100 px away from a 30 px-radius explosion is left
untouched by the radial pass. -/
theorem c8_amended_direct_bonus_witness :
    wC8w.directHitDamage = 5 ∧ blastKoala wC8w 0 0 kC8far = kC8far := by
  have h := c8_amended_direct_bonus wC8w 0 0 [] 0 kC8far
  refine ⟨h.1 5 rfl (by norm_num), h.2.2.2 rfl ?_⟩
  rw [show (((kC8far.x - 0) ^ 2 + (kC8far.y - 0) ^ 2 : ℚ) : ℝ) = 100 ^ 2 by
    norm_num [kC8far]]
  rw [Real.sqrt_sq (by norm_num)]
  norm_num [wC8w]

/-- A fully opaque 100×100 terrain (every canvas pixel at alpha 255). -/
def tOpaque : Terrain :=
  { width := 100, height := 100, alpha := fun _ _ => 255 }

/-- C1 counterexample: the point `(50, 100)` lies just below the canvas, so
`checkCollision` reports it solid ("below world = collision"); a crater of
radius 10 centred exactly there covers it at distance 0 ≤ 0.7·10, yet after
`createCrater` the point is still solid — carving can never clear the
below-world floor, so the claim fails for points outside the canvas. -/
theorem c1_counterexample :
    tOpaque.CheckCollision 50 100 ∧
    Real.sqrt ((((50 : ℤ) : ℝ) - 50) ^ 2 + (((100 : ℤ) : ℝ) - 100) ^ 2)
      ≤ 0.7 * 10 ∧
    (tOpaque.createCrater 50 100 10).CheckCollision 50 100 := by
  refine ⟨?_, ?_, ?_⟩
  · unfold Terrain.CheckCollision
    rw [if_pos (by norm_num [tOpaque])]
    norm_num [tOpaque]
  · norm_num [Real.sqrt_zero]
  · unfold Terrain.createCrater Terrain.CheckCollision
    rw [if_pos (by norm_num [tOpaque])]
    norm_num [tOpaque]

/-- C1 (amended): restricted to pixels inside the canvas, a solid pixel at
distance at most `0.7 · radius` from the crater centre is air after
`createCrater`; and (for any pixel whatsoever, in or out of the canvas) a
pixel at distance greater than `radius` has its collision value unchanged by
the call. -/
theorem c1_crater_clears_and_preserves (t : Terrain) (cx cy r : ℝ) (i j : ℤ) :
    (0 ≤ i → i < t.width → 0 ≤ j → j < t.height → t.CheckCollision i j →
      Real.sqrt (((i : ℝ) - cx) ^ 2 + ((j : ℝ) - cy) ^ 2) ≤ 0.7 * r →
      ¬ (t.createCrater cx cy r).CheckCollision i j) ∧
    (r < Real.sqrt (((i : ℝ) - cx) ^ 2 + ((j : ℝ) - cy) ^ 2) →
      ((t.createCrater cx cy r).CheckCollision i j ↔ t.CheckCollision i j)) := by
  constructor
  · intro hx0 hx1 hy0 hy1 _ hd
    unfold Terrain.createCrater Terrain.CheckCollision Terrain.MaskSolid
    rw [if_neg (by push_neg; exact ⟨hx0, hx1, hy0, hy1⟩)]
    dsimp only
    unfold craterFactor
    rw [if_pos hd]
    norm_num
  · intro hgt
    have hd0 : (0 : ℝ) ≤ Real.sqrt (((i : ℝ) - cx) ^ 2 + ((j : ℝ) - cy) ^ 2) :=
      Real.sqrt_nonneg _
    have h1 : ¬ Real.sqrt (((i : ℝ) - cx) ^ 2 + ((j : ℝ) - cy) ^ 2) ≤ 0.7 * r := by
      intro hle
      have hr : r < 0 := by linarith
      linarith
    have h2 : ¬ Real.sqrt (((i : ℝ) - cx) ^ 2 + ((j : ℝ) - cy) ^ 2) < r :=
      not_lt.mpr (le_of_lt hgt)
    have hfac :
        craterFactor r (Real.sqrt (((i : ℝ) - cx) ^ 2 + ((j : ℝ) - cy) ^ 2)) = 0 := by
      unfold craterFactor
      rw [if_neg h1, if_neg h2]
    unfold Terrain.createCrater Terrain.CheckCollision Terrain.MaskSolid
    dsimp only
    rw [hfac]
    norm_num

/-- C1 amended, evaluated concretely: the fully solid pixel `(50, 50)` of
`tOpaque` is air after a radius-10 crater centred on it. -/
theorem c1_crater_clears_and_preserves_witness :
    ¬ (tOpaque.createCrater 50 50 10).CheckCollision 50 50 := by
  refine (c1_crater_clears_and_preserves tOpaque 50 50 10 50 50).1
    (by norm_num) (by norm_num [tOpaque]) (by norm_num) (by norm_num [tOpaque])
    ?_ ?_
  · unfold Terrain.CheckCollision
    rw [if_neg (by norm_num [tOpaque])]
    norm_num [Terrain.MaskSolid, tOpaque]
  · norm_num [Real.sqrt_zero]

/-- C9: `getSurfaceNormal` is total and never divides by zero: for every
input point the returned vector has unit length, and whenever the
accumulated `-offset` sum is the zero vector the result is exactly
`(0, -1)`. -/
theorem c9_surface_normal_unit (t : Terrain) (x y : ℤ) :
    ((t.getSurfaceNormal x y).1 ^ 2 + (t.getSurfaceNormal x y).2 ^ 2 = 1) ∧
    (t.normalSum x y = (0, 0) → t.getSurfaceNormal x y = (0, -1)) := by
  unfold Terrain.getSurfaceNormal
  by_cases h : Real.sqrt (((t.normalSum x y).1 : ℝ) ^ 2 +
      ((t.normalSum x y).2 : ℝ) ^ 2) = 0
  · rw [if_pos h]
    exact ⟨by norm_num, fun _ => rfl⟩
  · rw [if_neg h]
    constructor
    · have hnn : (0 : ℝ) ≤ ((t.normalSum x y).1 : ℝ) ^ 2 +
          ((t.normalSum x y).2 : ℝ) ^ 2 := by positivity
      have hs := Real.sq_sqrt hnn
      have hsum : (((t.normalSum x y).1 : ℝ) ^ 2 +
          ((t.normalSum x y).2 : ℝ) ^ 2) ≠ 0 := by
        intro h0
        exact h (by rw [h0, Real.sqrt_zero])
      rw [div_pow, div_pow, div_add_div_same, hs]
      exact div_self hsum
    · intro h0
      exfalso
      apply h
      rw [h0]
      norm_num

/-- A fully transparent (all-air) 100×100 terrain. -/
def tAir : Terrain :=
  { width := 100, height := 100, alpha := fun _ _ => 0 }

/-- No in-canvas pixel of `tAir` is solid. -/
theorem tAir_not_solid (a b : ℤ) (h1 : 0 ≤ a) (h2 : a < 100) (h3 : 0 ≤ b)
    (h4 : b < 100) : ¬ tAir.CheckCollision a b := by
  unfold Terrain.CheckCollision
  rw [if_neg]
  · norm_num [Terrain.MaskSolid, tAir]
  · push_neg
    refine ⟨h1, ?_, h3, ?_⟩ <;> simpa [tAir]

/-- At `(50, 50)` every sample of the 5 px neighbourhood of `tAir` is air, so
the accumulated normal sum is the zero vector. -/
theorem tAir_normalSum : tAir.normalSum 50 50 = (0, 0) := by
  unfold Terrain.normalSum
  rw [Prod.mk.injEq]
  constructor <;>
  · refine Finset.sum_eq_zero fun ox hox => Finset.sum_eq_zero fun oy hoy => ?_
    rw [if_neg]
    rw [Finset.mem_Icc] at hox hoy
    exact tAir_not_solid _ _ (by omega) (by omega) (by omega) (by omega)

/-- C9, evaluated on the degenerate all-air sample: the documented fallback
`(0, -1)` is returned instead of a division by zero. -/
theorem c9_surface_normal_unit_witness :
    tAir.getSurfaceNormal 50 50 = (0, -1) :=
  (c9_surface_normal_unit tAir 50 50).2 tAir_normalSum

end Artillery
